import Mathlib

/-
Shallow embedding of the jwtazure repository (pkg/azure/azure.go): an
HTTP middleware validating Azure AD bearer tokens.  The embedding models
the validation pipeline: bearer-token extraction from the Authorization
header, the jwt.ParseWithClaims step of the golang-jwt/v5 library (with
the WithValidMethods(["RS256"]) option and the dual key-set keyFunc),
issuer and audience checks, and claims normalization (buildUserClaims).

Modelling conventions:
- Go strings become Lean String (character granularity stands in for Go
  byte granularity; all literals involved are ASCII).
- A JSON claim value (interface{} produced by JSON decoding) becomes the
  inductive JsonValue; jwt.MapClaims becomes an association list.
- Cryptography is abstracted: a Token records which verification keys
  its signature verifies against (sigValidKeys), whether its compact
  serialization decodes (wellFormed), its declared header values (alg,
  kid) and the outcome of time-based claims validation (claimsValid).
- The two keyfunc.Keyfunc key-set caches become functions from a key
  identifier to Except String Key.
- The Go error values of the package become the inductive GoErr; the
  fmt.Errorf("%w ...") wrappings are modelled by constructor payloads.
-/

deriving instance DecidableEq for Except

namespace Jwtazure

/-- JSON values as produced by decoding a token payload (Go interface{}). -/
inductive JsonValue where
  | str (s : String)
  | num (n : Int)
  | boolean (b : Bool)
  | arr (xs : List JsonValue)
  | null

/-- jwt.MapClaims: a raw claim mapping from claim name to JSON value. -/
abbrev MapClaims := List (String × JsonValue)

/-- Lookup of a claim by name in the raw mapping (Go map indexing). -/
def lookupClaim (m : MapClaims) (k : String) : Option JsonValue :=
  (m.find? (fun p => p.1 == k)).map Prod.snd

/-- Go type assertion v.(string) with the error ignored, as used both by
the MapClaims parseString helper (GetIssuer/GetSubject, whose error the
source discards) and by the direct assertions in buildUserClaims: the
claim value when present and a string, the empty string otherwise. -/
def asStringClaim (v : Option JsonValue) : String :=
  match v with
  | some (JsonValue.str s) => s
  | _ => ""

/-- getStringClaim m k reads claim k of m as a string, yielding the empty
string on absence or type mismatch. -/
def getStringClaim (m : MapClaims) (k : String) : String :=
  asStringClaim (lookupClaim m k)

/-- Helper of getAudience: a JSON array is converted to a string list only
when every element is a string (the golang-jwt parseClaimsString loop,
which errors out on the first non-string element). -/
def allStrings : List JsonValue → Option (List String)
  | [] => some []
  | JsonValue.str s :: rest => (allStrings rest).map (fun l => s :: l)
  | _ => none

/-- MapClaims.GetAudience with the error ignored, as the source does: a
string claim becomes a singleton list, an all-string array becomes the
list of its elements, everything else (absence, wrong type, or an array
holding a non-string, which errors in golang-jwt) yields the empty
list. -/
def getAudience (m : MapClaims) : List String :=
  match lookupClaim m "aud" with
  | some (JsonValue.str s) => [s]
  | some (JsonValue.arr xs) => (allStrings xs).getD []
  | _ => []

/-- Verification keys are abstract identifiers. -/
abbrev Key := Nat

/-- A key-set cache (keyfunc.Keyfunc) resolved over key identifiers:
given a token's kid it yields a verification key or an error message. -/
abbrev JwksResolver := String → Except String Key

/-- Abstraction of a decoded JWT compact serialization, as seen by the
golang-jwt v5 parser: structural well-formedness of the three segments,
the declared header algorithm and key identifier, the decoded claim
mapping, the set of keys the signature cryptographically verifies
against, and the outcome of the default time-based claims validation
(exp/nbf against the current time). -/
structure Token where
  wellFormed : Bool
  alg : String
  kid : String
  claims : MapClaims
  sigValidKeys : List Key
  claimsValid : Bool

/-- Errors of the golang-jwt v5 parser relevant to this pipeline, in the
order the parser can produce them: ErrTokenMalformed (structural decode),
the signing-method restriction (ErrTokenSignatureInvalid with the
"signing method %v is invalid" message), ErrTokenUnverifiable (keyfunc
returned an error), ErrTokenSignatureInvalid (verification failed), and
ErrTokenInvalidClaims (time-based claims validation failed). -/
inductive ParseErr where
  | malformed
  | algNotAllowed (alg : String)
  | keyfuncFailed (e : String)
  | signatureInvalid
  | invalidClaims
deriving DecidableEq, Repr

/-- Error values of the azure package, with the fmt.Errorf wrappings the
source adds (wrapped parser error, received issuer, received audience). -/
inductive GoErr where
  | missingAuthHeader
  | invalidAuthHeaderFormat
  | tokenParsingFailed (inner : ParseErr)
  | tokenInvalid
  | invalidIssuer (received : String)
  | invalidAudience (received : List String)
deriving DecidableEq, Repr

/-- UserClaims: the normalized claims struct built for a validated token. -/
structure UserClaims where
  Subject : String
  Name : String
  PreferredUser : String
  TenantID : String
  Audience : List String
  Issuer : String
  Scopes : String
  Roles : List String
  RawClaims : MapClaims

/-- Validator: the configuration constructed by NewValidator.  The logger
is modelled only by its presence flag. -/
structure Validator where
  jwksV1 : JwksResolver
  jwksV2 : JwksResolver
  validIssuers : List String
  validAudiences : List String
  isAudienceCheckEnabled : Bool
  hasLogger : Bool

/-- Functional options accepted by NewValidator. -/
inductive ValidatorOption where
  | withAudiences (audiences : List String)
  | withoutAudienceValidation
  | withLogger
deriving DecidableEq, Repr

/-- Application of one functional option to the validator under
construction (the Option closures of the source). -/
def applyOption (v : Validator) : ValidatorOption → Validator
  | ValidatorOption.withAudiences audiences => { v with validAudiences := audiences }
  | ValidatorOption.withoutAudienceValidation => { v with isAudienceCheckEnabled := false }
  | ValidatorOption.withLogger => { v with hasLogger := true }

/-- NewValidator: rejects an empty tenant id, initializes the two JWKS
caches (their construction outcomes are passed in, since they depend on
the network), derives the two accepted issuer strings from the tenant,
applies the options over the defaults (audience check enabled, no
audiences), creates a default logger when none was injected (the default
zap production logger is assumed to construct successfully), and finally
rejects a configuration with the audience check enabled but no
audiences. -/
def NewValidator (tenantID : String) (jwksV1Init jwksV2Init : Except String JwksResolver)
    (opts : List ValidatorOption) : Except String Validator :=
  if tenantID = "" then
    Except.error "el ID de inquilino (tenantID) no puede estar vacio"
  else
    match jwksV1Init with
    | Except.error e => Except.error ("fallo al crear el JWKS para v1: " ++ e)
    | Except.ok j1 =>
      match jwksV2Init with
      | Except.error e => Except.error ("fallo al crear el JWKS para v2: " ++ e)
      | Except.ok j2 =>
        let base : Validator :=
          { jwksV1 := j1
            jwksV2 := j2
            isAudienceCheckEnabled := true
            validIssuers :=
              [ "https://sts.windows.net/" ++ tenantID ++ "/",
                "https://login.microsoftonline.com/" ++ tenantID ++ "/v2.0" ]
            validAudiences := []
            hasLogger := false }
        let configured := opts.foldl applyOption base
        let withDefaults :=
          if configured.hasLogger = false then { configured with hasLogger := true }
          else configured
        if withDefaults.isAudienceCheckEnabled && withDefaults.validAudiences.isEmpty then
          Except.error "la validacion de audiencia esta habilitada pero no se proporcionaron audiencias validas"
        else Except.ok withDefaults

/-- Validator.keyFunc: the dual key-set resolver.  It consults the v2
key set first; on success that key is returned, otherwise the result of
the v1 key set (key or error) is returned. -/
def Validator.keyFunc (v : Validator) (tok : Token) : Except String Key :=
  match v.jwksV2 tok.kid with
  | Except.ok key => Except.ok key
  | Except.error _ => v.jwksV1 tok.kid

/-- audiencesIntersect: true when some declared token audience is in the
configured audience list. -/
def audiencesIntersect (validAudiences : List String) (tokenAudiences : List String) : Bool :=
  tokenAudiences.any (fun tokenAud => validAudiences.contains tokenAud)

/-- jwt.ParseWithClaims of golang-jwt v5, as invoked by the source with
WithValidMethods(["RS256"]): structural decode, then the signing-method
restriction, then the key lookup through the supplied keyfunc, then
signature verification, then time-based claims validation; the result is
the Valid flag of the returned token together with the returned error.
Any failure returns a token whose Valid flag is false; only a fully
validated token carries Valid = true. -/
def parseWithClaims (keyf : Token → Except String Key) (validMethods : List String)
    (tok : Token) : Bool × Option ParseErr :=
  if tok.wellFormed = false then (false, some ParseErr.malformed)
  else if validMethods.contains tok.alg = false then
    (false, some (ParseErr.algNotAllowed tok.alg))
  else
    match keyf tok with
    | Except.error e => (false, some (ParseErr.keyfuncFailed e))
    | Except.ok key =>
      if tok.sigValidKeys.contains key = false then (false, some ParseErr.signatureInvalid)
      else if tok.claimsValid = false then (false, some ParseErr.invalidClaims)
      else (true, none)

/-- buildUserClaims: normalization of the raw claim mapping.  Roles keeps
the string elements of the roles claim in order; the optional string
fields fall back to the empty string; audience, issuer and subject go
through the MapClaims getters with their errors ignored. -/
def buildUserClaims (m : MapClaims) : UserClaims :=
  let roles : List String :=
    match lookupClaim m "roles" with
    | some (JsonValue.arr xs) =>
      xs.filterMap (fun v => match v with | JsonValue.str s => some s | _ => none)
    | _ => []
  { Subject := getStringClaim m "sub"
    Name := asStringClaim (lookupClaim m "name")
    PreferredUser := asStringClaim (lookupClaim m "preferred_username")
    TenantID := asStringClaim (lookupClaim m "tid")
    Audience := getAudience m
    Issuer := getStringClaim m "iss"
    Scopes := asStringClaim (lookupClaim m "scp")
    Roles := roles
    RawClaims := m }

/-- Validator.validateToken: parse and verify through jwt.ParseWithClaims
(any returned error is wrapped in ErrTokenParsingFailed), reject a token
whose Valid flag is false with ErrTokenInvalid, check the issuer against
the configured list, check the audience intersection when enabled, and
build the normalized claims. -/
def Validator.validateToken (v : Validator) (tok : Token) : Except GoErr UserClaims :=
  match parseWithClaims v.keyFunc ["RS256"] tok with
  | (_, some e) => Except.error (GoErr.tokenParsingFailed e)
  | (valid, none) =>
    if valid = false then Except.error GoErr.tokenInvalid
    else
      let issuer := getStringClaim tok.claims "iss"
      if v.validIssuers.contains issuer = false then
        Except.error (GoErr.invalidIssuer issuer)
      else if v.isAudienceCheckEnabled = true
          ∧ audiencesIntersect v.validAudiences (getAudience tok.claims) = false then
        Except.error (GoErr.invalidAudience (getAudience tok.claims))
      else
        Except.ok (buildUserClaims tok.claims)

/-- An incoming HTTP request, restricted to what the middleware reads:
the Authorization header (none when absent) and the remote address. -/
structure Request where
  authorization : Option String
  remoteAddr : String

/-- http.Header.Get: the header value, or the empty string when the
header is absent. -/
def headerGet (h : Option String) : String := h.getD ""

/-- strings.EqualFold restricted to the case folding relevant here: both
sides lowercased character by character and compared.  Over the ASCII
scheme literal involved this coincides with the Unicode simple fold of
the Go function. -/
def eqFold (a b : String) : Bool :=
  a.data.map Char.toLower == b.data.map Char.toLower

/-- extractBearerToken: requires a non-empty Authorization header, then a
header strictly longer than seven characters whose first seven characters
case-insensitively equal the scheme marker, and returns everything after
those seven characters verbatim. -/
def extractBearerToken (r : Request) : Except GoErr String :=
  let authHeader := headerGet r.authorization
  if authHeader = "" then Except.error GoErr.missingAuthHeader
  else if 7 < authHeader.length ∧ eqFold (authHeader.take 7) "Bearer " = true then
    Except.ok (authHeader.drop 7)
  else Except.error GoErr.invalidAuthHeaderFormat

/-- Outcome of the wrapped handler: a 401 problem response built from a
given error, or forwarding to the downstream handler with the normalized
claims attached to the request context. -/
inductive HttpOutcome where
  | unauthorized (e : GoErr)
  | next (claims : UserClaims)

/-- Validator.Middleware on one request.  The decoding of a compact token
string into the Token abstraction (performed inside jwt.ParseWithClaims
in the source) is passed in as decode.  An extraction failure is
answered with that same error; a validation failure is answered with the
generic ErrTokenInvalid (the specific error is only logged); success
forwards downstream with the claims. -/
def Validator.middleware (v : Validator) (decode : String → Token) (r : Request) : HttpOutcome :=
  match extractBearerToken r with
  | Except.error e => HttpOutcome.unauthorized e
  | Except.ok tokenString =>
    match v.validateToken (decode tokenString) with
    | Except.error _ => HttpOutcome.unauthorized GoErr.tokenInvalid
    | Except.ok claims => HttpOutcome.next claims

/-
Concrete instances used by witnesses and counterexamples.
-/

/-- A key-set resolver that always finds key 1 (a warm v2 cache). -/
def exResolverOk : JwksResolver := fun _ => Except.ok 1

/-- A key-set resolver that always fails (kid absent from the set). -/
def exResolverErr : JwksResolver := fun _ => Except.error "kid not found in JWKS"

/-- A key-set resolver that always finds key 2 (a warm v1 cache). -/
def exResolverOk2 : JwksResolver := fun _ => Except.ok 2

/-- A validator for tenant contoso accepting audience api://myapp, with
the audience check enabled, as NewValidator would build it. -/
def exValidator : Validator :=
  { jwksV1 := exResolverErr
    jwksV2 := exResolverOk
    validIssuers :=
      [ "https://sts.windows.net/contoso/",
        "https://login.microsoftonline.com/contoso/v2.0" ]
    validAudiences := ["api://myapp"]
    isAudienceCheckEnabled := true
    hasLogger := true }

/-- A validator whose v2 key set lacks the kid while the v1 key set has
it. -/
def exValidatorV1Only : Validator :=
  { exValidator with jwksV2 := exResolverErr, jwksV1 := exResolverOk2 }

/-- Raw claims of a well-formed contoso v2.0 token. -/
def exClaims : MapClaims :=
  [ ("sub", JsonValue.str "u1"),
    ("name", JsonValue.str "Alice"),
    ("iss", JsonValue.str "https://login.microsoftonline.com/contoso/v2.0"),
    ("aud", JsonValue.arr [JsonValue.str "api://myapp"]),
    ("roles", JsonValue.arr [JsonValue.str "Admin", JsonValue.num 42, JsonValue.str "Reader"]) ]

/-- A structurally valid RS256 token over exClaims whose signature
verifies under key 1. -/
def exToken : Token :=
  { wellFormed := true
    alg := "RS256"
    kid := "kid1"
    claims := exClaims
    sigValidKeys := [1]
    claimsValid := true }

/-- The exToken with a signature that verifies under no key. -/
def exTokenBadSig : Token := { exToken with sigValidKeys := [] }

/-- The exToken declaring the symmetric algorithm HS256. -/
def exTokenHS : Token := { exToken with alg := "HS256" }

/-- The exToken with an undecodable compact serialization. -/
def exTokenMalformed : Token := { exToken with wellFormed := false }

/-
Claim theorems.
-/

/-- C6: the dual resolver consults the v2 key set first and returns its
key on success; on any v2 failure it returns whatever the v1 key set
yields, so a kid known only to v1 still resolves, and when both fail the
propagated error is the v1 (second) one. -/
theorem keyFunc_tries_v2_then_falls_back_to_v1 (v : Validator) (tok : Token) :
    (∀ k, v.jwksV2 tok.kid = Except.ok k → v.keyFunc tok = Except.ok k) ∧
    (∀ e, v.jwksV2 tok.kid = Except.error e → v.keyFunc tok = v.jwksV1 tok.kid) ∧
    (∀ e e2, v.jwksV2 tok.kid = Except.error e → v.jwksV1 tok.kid = Except.error e2 →
      v.keyFunc tok = Except.error e2) ∧
    (∀ e k, v.jwksV2 tok.kid = Except.error e → v.jwksV1 tok.kid = Except.ok k →
      v.keyFunc tok = Except.ok k) := by
  refine ⟨?_, ?_, ?_, ?_⟩ <;> intros <;> simp [Validator.keyFunc, *]

/-- C6 witness: the all-ok v2 resolver answers with key 1, and with the
kid only in the v1 set the token still resolves, to key 2. -/
theorem keyFunc_tries_v2_then_falls_back_to_v1_witness :
    exValidator.keyFunc exToken = Except.ok 1 ∧
    exValidatorV1Only.keyFunc exToken = Except.ok 2 :=
  ⟨(keyFunc_tries_v2_then_falls_back_to_v1 exValidator exToken).1 1 rfl,
   (keyFunc_tries_v2_then_falls_back_to_v1 exValidatorV1Only exToken).2.2.2
     "kid not found in JWKS" 2 rfl rfl⟩

/-- C3: a structurally valid token declaring any algorithm other than
RS256 is rejected with the wrapped signing-method error; the conclusion
is the same constant for every validator, in particular for arbitrary
key sets, so no key resolution influences it. -/
theorem validateToken_rejects_foreign_alg (v : Validator) (tok : Token)
    (hwf : tok.wellFormed = true) (halg : tok.alg ≠ "RS256") :
    v.validateToken tok =
      Except.error (GoErr.tokenParsingFailed (ParseErr.algNotAllowed tok.alg)) := by
  simp [Validator.validateToken, parseWithClaims, hwf, halg]

/-- C3 witness: the HS256 token is rejected with the signing-method
error. -/
theorem validateToken_rejects_foreign_alg_witness :
    exValidator.validateToken exTokenHS =
      Except.error (GoErr.tokenParsingFailed (ParseErr.algNotAllowed "HS256")) :=
  validateToken_rejects_foreign_alg exValidator exTokenHS rfl (by decide)

/-- C1 counterexample: on a token whose key resolves (to key 1) but whose
signature verifies under no key, validateToken returns the wrapped
parsing-failure error, and that error is not ErrTokenInvalid — refuting
the claim that a signature-verification failure yields TokenInvalid. -/
theorem validateToken_badsig_cex :
    exValidator.validateToken exTokenBadSig =
      Except.error (GoErr.tokenParsingFailed ParseErr.signatureInvalid) ∧
    GoErr.tokenParsingFailed ParseErr.signatureInvalid ≠ GoErr.tokenInvalid :=
  ⟨rfl, by decide⟩

/-- C1 (amended): a signature-verification failure (key resolved, but
the signature verifies under no resolved key) surfaces as the parser
error wrapped in ErrTokenParsingFailed; ErrTokenInvalid is produced only
by the defensive not-valid-flag branch, which the v5 parser cannot reach
(it never returns a nil error together with an invalid token). -/
theorem validateToken_badsig_is_parsingFailed (v : Validator) (tok : Token) (k : Key)
    (hwf : tok.wellFormed = true) (halg : tok.alg = "RS256")
    (hkey : v.keyFunc tok = Except.ok k) (hsig : tok.sigValidKeys.contains k = false) :
    v.validateToken tok =
      Except.error (GoErr.tokenParsingFailed ParseErr.signatureInvalid) := by
  have hsig2 : ¬ (k ∈ tok.sigValidKeys) := by simpa using hsig
  simp [Validator.validateToken, parseWithClaims, hwf, halg, hkey, hsig2]

/-- C1 witness: the bad-signature token hits the amended conclusion. -/
theorem validateToken_badsig_is_parsingFailed_witness :
    exValidator.validateToken exTokenBadSig =
      Except.error (GoErr.tokenParsingFailed ParseErr.signatureInvalid) :=
  validateToken_badsig_is_parsingFailed exValidator exTokenBadSig 1 rfl rfl rfl rfl

/-- C2: whenever validateToken fails, whatever the validation error was,
the middleware answers 401 carrying exactly the generic ErrTokenInvalid;
whenever bearer extraction fails, the middleware answers 401 carrying
that extraction error verbatim. -/
theorem middleware_masks_validation_errors (v : Validator) (decode : String → Token)
    (r : Request) :
    (∀ e, extractBearerToken r = Except.error e →
      v.middleware decode r = HttpOutcome.unauthorized e) ∧
    (∀ s err, extractBearerToken r = Except.ok s →
      v.validateToken (decode s) = Except.error err →
      v.middleware decode r = HttpOutcome.unauthorized GoErr.tokenInvalid) := by
  constructor
  · intro e he
    simp [Validator.middleware, he]
  · intro s err hs herr
    simp [Validator.middleware, hs, herr]

/-- C2 witness: a request with no Authorization header gets the
extraction error back verbatim, and a request whose token fails
validation (malformed here, so the wrapped parsing error) gets the
generic ErrTokenInvalid instead of that specific error. -/
theorem middleware_masks_validation_errors_witness :
    exValidator.middleware (fun _ => exTokenMalformed)
        { authorization := none, remoteAddr := "203.0.113.7:1234" } =
      HttpOutcome.unauthorized GoErr.missingAuthHeader ∧
    exValidator.middleware (fun _ => exTokenMalformed)
        { authorization := some "Bearer x.y.z", remoteAddr := "203.0.113.7:1234" } =
      HttpOutcome.unauthorized GoErr.tokenInvalid :=
  ⟨(middleware_masks_validation_errors exValidator (fun _ => exTokenMalformed)
      { authorization := none, remoteAddr := "203.0.113.7:1234" }).1
      GoErr.missingAuthHeader rfl,
   (middleware_masks_validation_errors exValidator (fun _ => exTokenMalformed)
      { authorization := some "Bearer x.y.z", remoteAddr := "203.0.113.7:1234" }).2
      "x.y.z" (GoErr.tokenParsingFailed ParseErr.malformed) rfl rfl⟩

/-- Case-insensitive prefix test, used to phrase the extraction claims:
the leading p.length characters of s fold-equal p. -/
def startsWithFold (s p : String) : Bool := eqFold (s.take p.length) p

/-- C7 as stated, as a function of the Authorization header: an absent
header means MissingAuthHeader, a present header that does not
case-insensitively start with the seven-character scheme marker means
InvalidAuthHeaderFormat, and otherwise the text after the marker is
returned verbatim.  This definition follows the words of the claim, for
comparison against extractBearerToken. -/
def extractBearerTokenClaimed (authorization : Option String) : Except GoErr String :=
  match authorization with
  | none => Except.error GoErr.missingAuthHeader
  | some h =>
    if startsWithFold h "Bearer " = true then Except.ok (h.drop 7)
    else Except.error GoErr.invalidAuthHeaderFormat

/-- C7 counterexample: a header that is exactly the scheme marker with
nothing after it does case-insensitively start with the marker, so the
claim as stated returns the empty token, but the code requires the
header to be strictly longer than seven characters and rejects it with
InvalidAuthHeaderFormat. -/
theorem extractBearerToken_scheme_only_cex :
    extractBearerToken { authorization := some "Bearer ", remoteAddr := "" } ≠
      extractBearerTokenClaimed (some "Bearer ") ∧
    extractBearerToken { authorization := some "Bearer ", remoteAddr := "" } =
      Except.error GoErr.invalidAuthHeaderFormat ∧
    extractBearerTokenClaimed (some "Bearer ") = Except.ok "" :=
  ⟨by decide, by decide, by decide⟩

/-- C7 (amended): an absent (empty) header yields MissingAuthHeader; a
non-empty header that does not case-insensitively start with the scheme
marker yields InvalidAuthHeaderFormat; a header that starts with the
marker but is not strictly longer than it also yields
InvalidAuthHeaderFormat; and a header that starts with the marker with
at least one character after it yields exactly the text after the
marker, verbatim. -/
theorem extractBearerToken_characterization (r : Request) (h : String)
    (hh : headerGet r.authorization = h) :
    (h = "" → extractBearerToken r = Except.error GoErr.missingAuthHeader) ∧
    (h ≠ "" → startsWithFold h "Bearer " = false →
      extractBearerToken r = Except.error GoErr.invalidAuthHeaderFormat) ∧
    (startsWithFold h "Bearer " = true → h.length ≤ 7 →
      extractBearerToken r = Except.error GoErr.invalidAuthHeaderFormat) ∧
    (startsWithFold h "Bearer " = true → 7 < h.length →
      extractBearerToken r = Except.ok (h.drop 7)) := by
  subst hh
  refine ⟨?_, ?_, ?_, ?_⟩
  · intro h1
    simp [extractBearerToken, h1]
  · intro hne hsw
    have hsw2 : eqFold ((headerGet r.authorization).take 7) "Bearer " = false := by
      simpa [startsWithFold] using hsw
    simp [extractBearerToken, hne, hsw2]
  · intro hsw hle
    by_cases h0 : headerGet r.authorization = ""
    · rw [h0] at hsw
      exact absurd hsw (by decide)
    · have hnlt : ¬ (7 < (headerGet r.authorization).length) := Nat.not_lt.mpr hle
      simp [extractBearerToken, h0, hnlt]
  · intro hsw hlt
    have hne : headerGet r.authorization ≠ "" := by
      intro h0
      rw [h0] at hlt
      exact absurd hlt (by decide)
    have hsw2 : eqFold ((headerGet r.authorization).take 7) "Bearer " = true := by
      simpa [startsWithFold] using hsw
    simp [extractBearerToken, hne, hlt, hsw2]

/-- C7 witness: a lower-case scheme with a token after it is accepted
and the token is returned unaltered. -/
theorem extractBearerToken_characterization_witness :
    extractBearerToken { authorization := some "bearer MyToKen", remoteAddr := "" } =
      Except.ok "MyToKen" :=
  (extractBearerToken_characterization
      { authorization := some "bearer MyToKen", remoteAddr := "" }
      "bearer MyToKen" rfl).2.2.2 (by decide) (by decide)

/-- C10: every token string successfully returned by extraction is
non-empty, and a header of exactly seven characters fold-equal to the
scheme marker (the marker alone, in any case) is rejected with
InvalidAuthHeaderFormat, because the code demands a header strictly
longer than seven characters. -/
theorem extractBearerToken_ok_token_nonempty (r : Request) :
    (∀ t, extractBearerToken r = Except.ok t → t ≠ "") ∧
    ((headerGet r.authorization).length = 7 →
      eqFold (headerGet r.authorization) "Bearer " = true →
      extractBearerToken r = Except.error GoErr.invalidAuthHeaderFormat) := by
  constructor
  · intro t ht
    by_cases h0 : headerGet r.authorization = ""
    · simp [extractBearerToken, h0] at ht
    · by_cases hg : 7 < (headerGet r.authorization).length ∧
          eqFold ((headerGet r.authorization).take 7) "Bearer " = true
      · have ht2 : (headerGet r.authorization).drop 7 = t := by
          have hx := ht
          simp [extractBearerToken, h0, hg.1, hg.2] at hx
          exact hx
        intro hemp
        rw [hemp] at ht2
        have hdata : (headerGet r.authorization).data.drop 7 = [] := by
          have := congrArg String.data ht2
          simpa using this
        have hlen : (headerGet r.authorization).data.length ≤ 7 :=
          List.drop_eq_nil_iff.mp hdata
        exact absurd hg.1 (Nat.not_lt.mpr hlen)
      · simp [extractBearerToken, h0, hg] at ht
  · intro hlen hfold
    have h0 : headerGet r.authorization ≠ "" := by
      intro e
      rw [e] at hlen
      exact absurd hlen (by decide)
    have hnlt : ¬ (7 < (headerGet r.authorization).length) := by
      rw [hlen]
      exact Nat.lt_irrefl 7
    simp [extractBearerToken, h0, hnlt]

/-- C10 witness: the bare upper-case scheme marker is rejected, and an
accepted header yields a non-empty token. -/
theorem extractBearerToken_ok_token_nonempty_witness :
    extractBearerToken { authorization := some "BEARER ", remoteAddr := "" } =
      Except.error GoErr.invalidAuthHeaderFormat ∧
    ("t" : String) ≠ "" :=
  ⟨(extractBearerToken_ok_token_nonempty
      { authorization := some "BEARER ", remoteAddr := "" }).2 (by decide) (by decide),
   (extractBearerToken_ok_token_nonempty
      { authorization := some "Bearer t", remoteAddr := "" }).1 "t" (by decide)⟩

/-- The audience intersection test succeeds exactly when some declared
token audience belongs to the configured audience list. -/
theorem audiencesIntersect_iff_exists (va ta : List String) :
    audiencesIntersect va ta = true ↔ ∃ a ∈ ta, a ∈ va := by
  simp [audiencesIntersect]

/-- C4: once a token passes parsing, verification and the issuer check,
the audience stage with the check enabled accepts exactly when some
declared audience of the token is among the configured audiences, an
empty intersection producing the InvalidAudience error with the received
audience list; with the check disabled the claim contents cannot fail
the token. -/
theorem validateToken_audience_stage (v : Validator) (tok : Token)
    (hparse : parseWithClaims v.keyFunc ["RS256"] tok = (true, none))
    (hiss : v.validIssuers.contains (getStringClaim tok.claims "iss") = true) :
    (v.isAudienceCheckEnabled = true →
      ((v.validateToken tok = Except.ok (buildUserClaims tok.claims)) ↔
        ∃ a ∈ getAudience tok.claims, a ∈ v.validAudiences) ∧
      ((¬ ∃ a ∈ getAudience tok.claims, a ∈ v.validAudiences) →
        v.validateToken tok =
          Except.error (GoErr.invalidAudience (getAudience tok.claims)))) ∧
    (v.isAudienceCheckEnabled = false →
      v.validateToken tok = Except.ok (buildUserClaims tok.claims)) := by
  have hiss2 : getStringClaim tok.claims "iss" ∈ v.validIssuers := by simpa using hiss
  have hin := audiencesIntersect_iff_exists v.validAudiences (getAudience tok.claims)
  constructor
  · intro hen
    by_cases hi : audiencesIntersect v.validAudiences (getAudience tok.claims) = true
    · have hex := hin.mp hi
      constructor
      · simp [Validator.validateToken, hparse, hiss2, hi, hex]
      · intro hnex
        exact absurd hex hnex
    · have hi2 : audiencesIntersect v.validAudiences (getAudience tok.claims) = false := by
        simpa using hi
      have hnex : ¬ ∃ a ∈ getAudience tok.claims, a ∈ v.validAudiences := by
        rw [← hin]
        simp [hi2]
      constructor
      · simp [Validator.validateToken, hparse, hiss2, hen, hi2, hnex]
      · intro _
        simp [Validator.validateToken, hparse, hiss2, hen, hi2]
  · intro hdis
    simp [Validator.validateToken, hparse, hiss2, hdis]

/-- C4 witness: with the check enabled the example token, declaring
audience api://myapp, is accepted with its normalized claims, and a
token declaring only an unknown audience is rejected with
InvalidAudience carrying that list. -/
theorem validateToken_audience_stage_witness :
    exValidator.validateToken exToken = Except.ok (buildUserClaims exClaims) ∧
    exValidator.validateToken
        { exToken with claims := [("iss", JsonValue.str "https://sts.windows.net/contoso/"),
                                  ("aud", JsonValue.str "api://other")] } =
      Except.error (GoErr.invalidAudience ["api://other"]) :=
  ⟨((validateToken_audience_stage exValidator exToken rfl rfl).1 rfl).1.mpr
      ⟨"api://myapp", by decide, by decide⟩,
   ((validateToken_audience_stage exValidator
        { exToken with claims := [("iss", JsonValue.str "https://sts.windows.net/contoso/"),
                                  ("aud", JsonValue.str "api://other")] }
        rfl rfl).1 rfl).2
      (by decide)⟩

/-- No functional option touches the derived issuer list. -/
theorem applyOption_validIssuers (v : Validator) (o : ValidatorOption) :
    (applyOption v o).validIssuers = v.validIssuers := by
  cases o <;> rfl

/-- Folding any option list leaves the derived issuer list unchanged. -/
theorem foldl_applyOption_validIssuers (opts : List ValidatorOption) (v : Validator) :
    (opts.foldl applyOption v).validIssuers = v.validIssuers := by
  induction opts generalizing v with
  | nil => rfl
  | cons o rest ih => rw [List.foldl_cons, ih, applyOption_validIssuers]

/-- Inversion of a successful construction: the validator carries
exactly the two issuer strings derived from the tenant, and when its
audience check is enabled its audience list is non-empty. -/
theorem newValidator_ok_inv (t : String) (j1 j2 : Except String JwksResolver)
    (opts : List ValidatorOption) (v : Validator)
    (h : NewValidator t j1 j2 opts = Except.ok v) :
    v.validIssuers =
      [ "https://sts.windows.net/" ++ t ++ "/",
        "https://login.microsoftonline.com/" ++ t ++ "/v2.0" ] ∧
    (v.isAudienceCheckEnabled = true → v.validAudiences ≠ []) := by
  unfold NewValidator at h
  by_cases ht : t = ""
  · simp [ht] at h
  · rw [if_neg ht] at h
    cases j1 with
    | error e => simp at h
    | ok f1 =>
      cases j2 with
      | error e => simp at h
      | ok f2 =>
        dsimp only at h
        split at h <;> split at h <;>
          first
          | exact Except.noConfusion h
          | (rename_i hcond
             have hv := Except.ok.inj h
             subst hv
             refine ⟨by simp [foldl_applyOption_validIssuers], fun hen hempty => ?_⟩
             exact hcond (by
               simp only [Bool.and_eq_true, List.isEmpty_iff]
               exact ⟨hen, hempty⟩))

/-- C9: construction fails on an empty tenant id; with no options at all
it also fails, since the audience check defaults to enabled while the
audience list defaults to empty; and every successfully constructed
validator with the audience check enabled carries a non-empty audience
list. -/
theorem newValidator_construction_guards :
    (∀ (j1 j2 : Except String JwksResolver) (opts : List ValidatorOption),
      ∃ e, NewValidator "" j1 j2 opts = Except.error e) ∧
    (∀ (t : String) (j1 j2 : Except String JwksResolver),
      ∃ e, NewValidator t j1 j2 [] = Except.error e) ∧
    (∀ (t : String) (j1 j2 : Except String JwksResolver)
        (opts : List ValidatorOption) (v : Validator),
      NewValidator t j1 j2 opts = Except.ok v →
      v.isAudienceCheckEnabled = true → v.validAudiences ≠ []) := by
  refine ⟨fun j1 j2 opts => ⟨_, rfl⟩, fun t j1 j2 => ?_, ?_⟩
  · by_cases ht : t = ""
    · exact ⟨"el ID de inquilino (tenantID) no puede estar vacio",
        by simp [NewValidator, ht]⟩
    · cases j1 with
      | error e => exact ⟨"fallo al crear el JWKS para v1: " ++ e,
          by simp [NewValidator, ht]⟩
      | ok f1 =>
        cases j2 with
        | error e => exact ⟨"fallo al crear el JWKS para v2: " ++ e,
            by simp [NewValidator, ht]⟩
        | ok f2 =>
          exact ⟨"la validacion de audiencia esta habilitada pero no se proporcionaron audiencias validas",
            by simp [NewValidator, ht]⟩
  · intro t j1 j2 opts v h
    exact (newValidator_ok_inv t j1 j2 opts v h).2

/-- C9 witness: the invariant instantiated at a successful construction
for tenant contoso with one audience. -/
theorem newValidator_construction_guards_witness :
    exValidator.validAudiences ≠ [] :=
  newValidator_construction_guards.2.2 "contoso"
    (Except.ok exResolverErr) (Except.ok exResolverOk)
    [ValidatorOption.withAudiences ["api://myapp"]] exValidator rfl rfl

/-- C5: for a token that passed parsing and verification, the issuer
stage of a constructed validator accepts exactly the two issuer strings
derived from the tenant; any other issuer value — including the empty
string read from an absent issuer claim — produces InvalidIssuer
carrying the received value, while a matching issuer moves the token on
to the audience stage (acceptance or InvalidAudience). -/
theorem validateToken_issuer_stage (t : String) (j1 j2 : Except String JwksResolver)
    (opts : List ValidatorOption) (v : Validator) (tok : Token)
    (hnew : NewValidator t j1 j2 opts = Except.ok v)
    (hparse : parseWithClaims v.keyFunc ["RS256"] tok = (true, none)) :
    v.validIssuers =
      [ "https://sts.windows.net/" ++ t ++ "/",
        "https://login.microsoftonline.com/" ++ t ++ "/v2.0" ] ∧
    (∀ iss, getStringClaim tok.claims "iss" = iss →
      (iss ≠ "https://sts.windows.net/" ++ t ++ "/" ∧
          iss ≠ "https://login.microsoftonline.com/" ++ t ++ "/v2.0" →
        v.validateToken tok = Except.error (GoErr.invalidIssuer iss)) ∧
      (iss = "https://sts.windows.net/" ++ t ++ "/" ∨
          iss = "https://login.microsoftonline.com/" ++ t ++ "/v2.0" →
        v.validateToken tok = Except.ok (buildUserClaims tok.claims) ∨
        v.validateToken tok =
          Except.error (GoErr.invalidAudience (getAudience tok.claims)))) ∧
    (lookupClaim tok.claims "iss" = none →
      v.validateToken tok = Except.error (GoErr.invalidIssuer "")) := by
  have hvi := (newValidator_ok_inv t j1 j2 opts v hnew).1
  have hmain : ∀ iss, getStringClaim tok.claims "iss" = iss →
      (iss ≠ "https://sts.windows.net/" ++ t ++ "/" ∧
          iss ≠ "https://login.microsoftonline.com/" ++ t ++ "/v2.0" →
        v.validateToken tok = Except.error (GoErr.invalidIssuer iss)) ∧
      (iss = "https://sts.windows.net/" ++ t ++ "/" ∨
          iss = "https://login.microsoftonline.com/" ++ t ++ "/v2.0" →
        v.validateToken tok = Except.ok (buildUserClaims tok.claims) ∨
        v.validateToken tok =
          Except.error (GoErr.invalidAudience (getAudience tok.claims))) := by
    intro iss hiss
    subst hiss
    constructor
    · intro hne
      have hnotmem : ¬ (getStringClaim tok.claims "iss" ∈ v.validIssuers) := by
        rw [hvi]
        simp [hne.1, hne.2]
      simp [Validator.validateToken, hparse, hnotmem]
    · intro hmem
      have hm : getStringClaim tok.claims "iss" ∈ v.validIssuers := by
        rw [hvi]
        rcases hmem with h1 | h1 <;> simp [h1]
      by_cases hcond : v.isAudienceCheckEnabled = true
          ∧ audiencesIntersect v.validAudiences (getAudience tok.claims) = false
      · right
        simp [Validator.validateToken, hparse, hm, hcond]
      · left
        simp [Validator.validateToken, hparse, hm, hcond]
  refine ⟨hvi, hmain, ?_⟩
  · intro habs
    have hempty : getStringClaim tok.claims "iss" = "" := by
      simp [getStringClaim, habs, asStringClaim]
    have hneq : ("" : String) ≠ "https://sts.windows.net/" ++ t ++ "/" ∧
        ("" : String) ≠ "https://login.microsoftonline.com/" ++ t ++ "/v2.0" := by
      constructor
      · intro he
        have hl := congrArg String.length he
        simp [String.length_append] at hl
        rw [show ("https://sts.windows.net/" : String).length = 24 from rfl,
            show ("/" : String).length = 1 from rfl] at hl
        omega
      · intro he
        have hl := congrArg String.length he
        simp [String.length_append] at hl
        rw [show ("https://login.microsoftonline.com/" : String).length = 34 from rfl,
            show ("/v2.0" : String).length = 5 from rfl] at hl
        omega
    exact ((hmain "" hempty).1 hneq)

/-- C5 witness: under the validator constructed for tenant contoso, the
example token with the v2.0 issuer reaches the audience stage, and the
same token with a foreign issuer is rejected with InvalidIssuer carrying
the received value. -/
theorem validateToken_issuer_stage_witness :
    (exValidator.validateToken exToken = Except.ok (buildUserClaims exClaims) ∨
      exValidator.validateToken exToken =
        Except.error (GoErr.invalidAudience (getAudience exClaims))) ∧
    exValidator.validateToken { exToken with claims :=
        [("iss", JsonValue.str "https://evil.example/contoso/v2.0")] } =
      Except.error (GoErr.invalidIssuer "https://evil.example/contoso/v2.0") :=
  ⟨((validateToken_issuer_stage "contoso"
        (Except.ok exResolverErr) (Except.ok exResolverOk)
        [ValidatorOption.withAudiences ["api://myapp"]] exValidator exToken
        rfl rfl).2.1
      "https://login.microsoftonline.com/contoso/v2.0" rfl).2 (Or.inr rfl),
   ((validateToken_issuer_stage "contoso"
        (Except.ok exResolverErr) (Except.ok exResolverOk)
        [ValidatorOption.withAudiences ["api://myapp"]] exValidator
        { exToken with claims :=
            [("iss", JsonValue.str "https://evil.example/contoso/v2.0")] }
        rfl rfl).2.1
      "https://evil.example/contoso/v2.0" rfl).1 (by decide)⟩

/-- Test used to phrase the wrong-type cases of C8: whether an optional
claim value is present and a JSON string. -/
def isStrVal : Option JsonValue → Bool
  | some (JsonValue.str _) => true
  | _ => false

/-- Test used to phrase the wrong-type cases of C8: whether an optional
claim value is present and a JSON array. -/
def isArrVal : Option JsonValue → Bool
  | some (JsonValue.arr _) => true
  | _ => false

/-- A claim value that is absent or not a string reads as the empty
string. -/
theorem asStringClaim_of_not_string (o : Option JsonValue) (h : isStrVal o = false) :
    asStringClaim o = "" := by
  cases o with
  | none => rfl
  | some v =>
    cases v with
    | str s => simp [isStrVal] at h
    | num n => rfl
    | boolean b => rfl
    | arr xs => rfl
    | null => rfl

/-- Keeping the string elements of a JSON list and re-wrapping them is
the same as filtering the list down to its string elements: the role
extraction is the order-preserving filter of the string entries. -/
theorem filterMap_str_map (xs : List JsonValue) :
    (xs.filterMap (fun v => match v with | JsonValue.str s => some s | _ => none)).map
        JsonValue.str =
      xs.filter (fun v => match v with | JsonValue.str _ => true | _ => false) := by
  induction xs with
  | nil => rfl
  | cons x rest ih => cases x <;> simp [List.filterMap_cons, List.filter_cons, ih]

/-- C8: normalization never fails (buildUserClaims is a total function);
the Roles field is the order-preserving filter of the roles claim down
to its string elements — wrapping Roles back into JSON strings yields
exactly that filtered list, and the quoted example drops the non-string
42 — an absent or non-list roles claim gives the empty role list; and
each optional string field is the corresponding claim when present as a
string and the empty string when absent or of another type. -/
theorem buildUserClaims_normalization (m : MapClaims) :
    (∀ xs, lookupClaim m "roles" = some (JsonValue.arr xs) →
      (buildUserClaims m).Roles.map JsonValue.str =
        xs.filter (fun v => match v with | JsonValue.str _ => true | _ => false)) ∧
    (isArrVal (lookupClaim m "roles") = false → (buildUserClaims m).Roles = []) ∧
    (buildUserClaims
        [("roles", JsonValue.arr
            [JsonValue.str "Admin", JsonValue.num 42, JsonValue.str "Reader"])]).Roles =
      ["Admin", "Reader"] ∧
    (∀ s, lookupClaim m "name" = some (JsonValue.str s) →
      (buildUserClaims m).Name = s) ∧
    (isStrVal (lookupClaim m "name") = false → (buildUserClaims m).Name = "") ∧
    (∀ s, lookupClaim m "preferred_username" = some (JsonValue.str s) →
      (buildUserClaims m).PreferredUser = s) ∧
    (isStrVal (lookupClaim m "preferred_username") = false →
      (buildUserClaims m).PreferredUser = "") ∧
    (∀ s, lookupClaim m "tid" = some (JsonValue.str s) →
      (buildUserClaims m).TenantID = s) ∧
    (isStrVal (lookupClaim m "tid") = false → (buildUserClaims m).TenantID = "") ∧
    (∀ s, lookupClaim m "scp" = some (JsonValue.str s) →
      (buildUserClaims m).Scopes = s) ∧
    (isStrVal (lookupClaim m "scp") = false → (buildUserClaims m).Scopes = "") := by
  refine ⟨?_, ?_, by decide, ?_, ?_, ?_, ?_, ?_, ?_, ?_, ?_⟩
  · intro xs hx
    simp [buildUserClaims, hx, filterMap_str_map]
  · intro hna
    rcases ho : lookupClaim m "roles" with _ | v
    · simp [buildUserClaims, ho]
    · cases v with
      | arr xs => rw [ho] at hna; simp [isArrVal] at hna
      | str s => simp [buildUserClaims, ho]
      | num n => simp [buildUserClaims, ho]
      | boolean b => simp [buildUserClaims, ho]
      | null => simp [buildUserClaims, ho]
  · intro s hs
    simp [buildUserClaims, hs, asStringClaim]
  · intro hns
    simp [buildUserClaims, asStringClaim_of_not_string _ hns]
  · intro s hs
    simp [buildUserClaims, hs, asStringClaim]
  · intro hns
    simp [buildUserClaims, asStringClaim_of_not_string _ hns]
  · intro s hs
    simp [buildUserClaims, hs, asStringClaim]
  · intro hns
    simp [buildUserClaims, asStringClaim_of_not_string _ hns]
  · intro s hs
    simp [buildUserClaims, hs, asStringClaim]
  · intro hns
    simp [buildUserClaims, asStringClaim_of_not_string _ hns]

/-- C8 witness: on the example claims the roles filter keeps Admin and
Reader around the dropped 42, the name claim is surfaced, and a
wrong-typed name claim falls back to the empty string. -/
theorem buildUserClaims_normalization_witness :
    (buildUserClaims exClaims).Roles.map JsonValue.str =
      ([JsonValue.str "Admin", JsonValue.num 42, JsonValue.str "Reader"].filter
        (fun v => match v with | JsonValue.str _ => true | _ => false)) ∧
    (buildUserClaims exClaims).Name = "Alice" ∧
    (buildUserClaims [("name", JsonValue.num 7)]).Name = "" :=
  ⟨(buildUserClaims_normalization exClaims).1
      [JsonValue.str "Admin", JsonValue.num 42, JsonValue.str "Reader"] rfl,
   (buildUserClaims_normalization exClaims).2.2.2.1 "Alice" rfl,
   (buildUserClaims_normalization [("name", JsonValue.num 7)]).2.2.2.2.1 rfl⟩

end Jwtazure
